import Mathlib

/-!
# Verification of the Al-Minar client trust/session logic

Shallow embedding of the trust/verification code in
`src/minarAPI/static/js/app.js`: the `Auth` object and `authFetch`
wrapper (token session management), `submitMasjidReport` (role-gated
venue submission), `confidenceBadgeHTML` and the per-page confidence
level derivations, the badge display of `initDetail`, the verify-page
renderer of `initVerify`, and `escHTML`.

Browser-environment effects (fetch responses, localStorage) are made
explicit: localStorage becomes a `Storage` value threaded through the
functions, and the network becomes an `Env` of per-call outcomes.
-/

namespace AlMinar

/-! ## Session storage (localStorage keys al_access / al_refresh / al_user) -/

/-- The three localStorage slots the `Auth` object owns:
`al_access`, `al_refresh`, and the serialized `al_user`. -/
structure Storage where
  access : Option String
  refresh : Option String
  user : Option String
deriving DecidableEq, Repr

/-- `Auth.clear()`: removes all three keys. -/
def Storage.cleared : Storage := ⟨none, none, none⟩

/-- JavaScript truthiness of a string-or-null value
(`null`, `undefined` and the empty string are falsy). -/
def truthyStr : Option String → Bool
  | none => false
  | some s => !(s = "")

/-- Outcome of the POST to `/api/token/refresh/` as seen by
`Auth.refreshToken`: the fetch throws, returns a non-ok response, or
returns ok with a new access token and an optional new refresh token. -/
inductive RefreshOutcome where
  | throws
  | notOk
  | ok (access : String) (refresh : Option String)
deriving DecidableEq, Repr

/-- Result of running `Auth.refreshToken`: its boolean return value, the
storage afterwards, and how many times the refresh endpoint was hit. -/
structure RefreshRun where
  success : Bool
  store : Storage
  calls : Nat
deriving DecidableEq, Repr

/-- `Auth.refreshToken()`: returns false without a call when no refresh
credential is held; on a thrown fetch or a non-ok response it runs
`this.clear()` and returns false; on ok it stores the new access token,
stores the new refresh token when one is present, and returns true. -/
def refreshToken (st : Storage) (ro : RefreshOutcome) : RefreshRun :=
  if truthyStr st.refresh then
    match ro with
    | RefreshOutcome.throws => ⟨false, Storage.cleared, 1⟩
    | RefreshOutcome.notOk => ⟨false, Storage.cleared, 1⟩
    | RefreshOutcome.ok a rf =>
        ⟨true,
         { st with
             access := some a,
             refresh := match rf with
               | some x => some x
               | none => st.refresh },
         1⟩
  else ⟨false, st, 0⟩

/-- An HTTP response: status code plus an abstract body, so that
"the original response returned unchanged" is expressible. -/
structure Response where
  status : Nat
  body : String
deriving DecidableEq, Repr

/-- Outcome of one `fetch` of the original request: a transport-level
throw, or a response. -/
inductive FetchOutcome where
  | throws
  | ok (r : Response)
deriving DecidableEq, Repr

/-- The network environment one `authFetch` call can observe: the
outcome of the first issue of the request, of the (at most one) refresh
call, and of the (at most one) retried issue of the request. -/
structure Env where
  first : FetchOutcome
  refreshO : RefreshOutcome
  second : FetchOutcome
deriving DecidableEq, Repr

/-- `if (token) options.headers.Authorization = Bearer token`:
the Authorization header attached to the first issue of the request. -/
def bearerHeader (tok : Option String) : Option String :=
  match tok with
  | some t => if t = "" then none else some ("Bearer " ++ t)
  | none => none

/-- The retry assigns the header unconditionally from the template
string, stringifying a null access token the way JavaScript would. -/
def bearerRetryHeader (tok : Option String) : Option String :=
  some ("Bearer " ++ (match tok with | some t => t | none => "null"))

/-- What one `authFetch` call produced: the value returned to the caller
(`none` means the call rejected with a transport error), the storage
afterwards, how many times the original request was issued, how many
times the refresh endpoint was called, and the Authorization header of
each issue of the original request in order. -/
structure AuthFetchResult where
  result : Option Response
  store : Storage
  origCalls : Nat
  refreshCalls : Nat
  headers : List (Option String)
deriving DecidableEq, Repr

/-- `authFetch(url, options)`: attach the access token if present and
issue the request; if the response status is 401 and a refresh
credential is held, run `Auth.refreshToken()` once, and only on success
re-attach the (new) access token and issue the request once more; in
every other case return the first outcome as is. -/
def authFetch (st : Storage) (env : Env) : AuthFetchResult :=
  let hdr1 := bearerHeader st.access
  match env.first with
  | FetchOutcome.throws =>
      { result := none, store := st, origCalls := 1, refreshCalls := 0, headers := [hdr1] }
  | FetchOutcome.ok r =>
      if r.status = 401 ∧ truthyStr st.refresh = true then
        let rr := refreshToken st env.refreshO
        if rr.success then
          let hdr2 := bearerRetryHeader rr.store.access
          match env.second with
          | FetchOutcome.throws =>
              { result := none, store := rr.store, origCalls := 2,
                refreshCalls := rr.calls, headers := [hdr1, hdr2] }
          | FetchOutcome.ok r2 =>
              { result := some r2, store := rr.store, origCalls := 2,
                refreshCalls := rr.calls, headers := [hdr1, hdr2] }
        else
          { result := some r, store := rr.store, origCalls := 1,
            refreshCalls := rr.calls, headers := [hdr1] }
      else
        { result := some r, store := st, origCalls := 1, refreshCalls := 0, headers := [hdr1] }

/-! ## Claims C2, C3, C7: the token session manager -/

/-- C2: if the first response is a 401 and a refresh credential is held,
exactly one refresh attempt is made, and on refresh success the original
request is re-issued exactly once carrying the new access credential;
under every input the original request is issued at most twice and the
refresh endpoint called at most once. -/
theorem authFetch_refresh_retry_discipline (st : Storage) (env : Env) :
    (∀ r : Response, env.first = FetchOutcome.ok r → r.status = 401 →
      truthyStr st.refresh = true →
      (authFetch st env).refreshCalls = 1 ∧
      (∀ (a : String) (rf : Option String), env.refreshO = RefreshOutcome.ok a rf →
        (authFetch st env).origCalls = 2 ∧
        (authFetch st env).headers = [bearerHeader st.access, some ("Bearer " ++ a)])) ∧
    (authFetch st env).origCalls ≤ 2 ∧ (authFetch st env).refreshCalls ≤ 1 := by
  rcases env with ⟨first, ro, second⟩
  cases first with
  | throws => simp [authFetch]
  | ok r =>
    by_cases h401 : r.status = 401
    · by_cases hrf : truthyStr st.refresh = true
      · cases ro with
        | throws =>
            cases second <;>
              simp [authFetch, refreshToken, h401, hrf]
        | notOk =>
            cases second <;>
              simp [authFetch, refreshToken, h401, hrf]
        | ok a rfo =>
            cases second <;>
              simp [authFetch, refreshToken, bearerRetryHeader, h401, hrf]
      · simp [authFetch, h401, hrf]
    · simp [authFetch, h401]

/-- Witness for C2 at a concrete session and network environment. -/
theorem authFetch_refresh_retry_discipline_witness :
    (authFetch ⟨some "A", some "R", some "u"⟩
        ⟨FetchOutcome.ok ⟨401, "unauth"⟩, RefreshOutcome.ok "A2" none,
         FetchOutcome.ok ⟨200, "done"⟩⟩).refreshCalls = 1 ∧
    (authFetch ⟨some "A", some "R", some "u"⟩
        ⟨FetchOutcome.ok ⟨401, "unauth"⟩, RefreshOutcome.ok "A2" none,
         FetchOutcome.ok ⟨200, "done"⟩⟩).origCalls = 2 := by
  have h := authFetch_refresh_retry_discipline ⟨some "A", some "R", some "u"⟩
      ⟨FetchOutcome.ok ⟨401, "unauth"⟩, RefreshOutcome.ok "A2" none,
       FetchOutcome.ok ⟨200, "done"⟩⟩
  have h1 := h.1 ⟨401, "unauth"⟩ rfl rfl (by decide)
  exact ⟨h1.1, (h1.2 "A2" none rfl).1⟩

/-- C3: a 401 first response followed by a failed refresh (non-ok refresh
response or a thrown refresh fetch) destroys the whole session — access
credential, refresh credential and cached user identity all removed —
and the original 401 response is returned to the caller unchanged,
without a retry. -/
theorem authFetch_refresh_failure_destroys_session (st : Storage) (env : Env) (r : Response)
    (h1 : env.first = FetchOutcome.ok r) (h2 : r.status = 401)
    (h3 : truthyStr st.refresh = true)
    (h4 : env.refreshO = RefreshOutcome.notOk ∨ env.refreshO = RefreshOutcome.throws) :
    (authFetch st env).store = Storage.cleared ∧
    (authFetch st env).store.access = none ∧
    (authFetch st env).store.refresh = none ∧
    (authFetch st env).store.user = none ∧
    (authFetch st env).result = some r ∧
    (authFetch st env).origCalls = 1 := by
  rcases env with ⟨first, ro, second⟩
  cases h1
  rcases h4 with h4 | h4 <;> cases h4 <;>
    simp [authFetch, refreshToken, Storage.cleared, h2, h3]

/-- Witness for C3 at a concrete session and network environment. -/
theorem authFetch_refresh_failure_destroys_session_witness :
    (authFetch ⟨some "A", some "R", some "u"⟩
        ⟨FetchOutcome.ok ⟨401, "unauth"⟩, RefreshOutcome.notOk,
         FetchOutcome.ok ⟨200, "done"⟩⟩).store = Storage.cleared ∧
    (authFetch ⟨some "A", some "R", some "u"⟩
        ⟨FetchOutcome.ok ⟨401, "unauth"⟩, RefreshOutcome.notOk,
         FetchOutcome.ok ⟨200, "done"⟩⟩).result = some ⟨401, "unauth"⟩ := by
  have h := authFetch_refresh_failure_destroys_session ⟨some "A", some "R", some "u"⟩
      ⟨FetchOutcome.ok ⟨401, "unauth"⟩, RefreshOutcome.notOk,
       FetchOutcome.ok ⟨200, "done"⟩⟩ ⟨401, "unauth"⟩ rfl rfl (by decide) (Or.inl rfl)
  exact ⟨h.1, h.2.2.2.2.1⟩

/-- C7: a transport-level failure of the first issue of the request
(fetch throws, no response) propagates to the caller; no refresh attempt
and no retry is made, and the session is untouched. -/
theorem authFetch_transport_failure_propagates (st : Storage) (env : Env)
    (h : env.first = FetchOutcome.throws) :
    (authFetch st env).result = none ∧
    (authFetch st env).refreshCalls = 0 ∧
    (authFetch st env).origCalls = 1 ∧
    (authFetch st env).store = st := by
  rcases env with ⟨first, ro, second⟩
  cases h
  simp [authFetch]

/-- Witness for C7 at a concrete session and network environment. -/
theorem authFetch_transport_failure_propagates_witness :
    (authFetch ⟨some "A", some "R", some "u"⟩
        ⟨FetchOutcome.throws, RefreshOutcome.notOk,
         FetchOutcome.ok ⟨200, "done"⟩⟩).result = none ∧
    (authFetch ⟨some "A", some "R", some "u"⟩
        ⟨FetchOutcome.throws, RefreshOutcome.notOk,
         FetchOutcome.ok ⟨200, "done"⟩⟩).refreshCalls = 0 := by
  have h := authFetch_transport_failure_propagates ⟨some "A", some "R", some "u"⟩
      ⟨FetchOutcome.throws, RefreshOutcome.notOk, FetchOutcome.ok ⟨200, "done"⟩⟩ rfl
  exact ⟨h.1, h.2.1⟩

/-! ## Role-gated venue submission (`submitMasjidReport`) -/

/-- The JSON body of the POST to `/api/masjids/` built by
`submitMasjidReport`. -/
structure MasjidCreateBody where
  name : String
  description : Option String
  isActive : Bool
deriving DecidableEq, Repr

/-- The JSON body of the POST to `/api/signals/` built by
`submitMasjidReport`. -/
structure SignalBody where
  masjid : String
  signalType : String
  sourceType : String
  description : String
  user : Option String
deriving DecidableEq, Repr

/-- `submitMasjidReport(isAdmin)`: the venue-creation body carries
`isActive: isAdmin`, and the initial-signal body carries
`signalType: isAdmin ? ADMIN_VERIFY : ACTIVE` and
`sourceType: isAdmin ? ADMIN : USER`; the `user` field is attached only
when `user?.username` is truthy. The location-record and
masjid-admin-link requests the function also issues do not affect the
venue or signal bodies and are not modelled. -/
def submitMasjidReport (isAdmin : Bool) (name desc : String) (username : Option String)
    (masjidID : String) : MasjidCreateBody × SignalBody :=
  let masjidBody : MasjidCreateBody :=
    { name := name
      description := if desc = "" then none else some desc
      isActive := isAdmin }
  let signalBody : SignalBody :=
    { masjid := masjidID
      signalType := if isAdmin then "ADMIN_VERIFY" else "ACTIVE"
      sourceType := if isAdmin then "ADMIN" else "USER"
      description := if isAdmin then "Masjid admin direct submission"
                     else "Community report — initial signal"
      user := username.bind (fun u => if u = "" then none else some u) }
  (masjidBody, signalBody)

/-! ## Claims C1 and C5: the activation gate at submission -/

/-- C1 counterexample: a non-admin submission does create the venue
unlisted, but the accompanying signal's kind is the literal `ACTIVE`,
not `INITIAL`, so the claim fails as stated at this concrete input. -/
theorem submitUser_signalType_not_INITIAL :
    ¬ ((submitMasjidReport false "Masjid An-Nur" "" none "m1").2.signalType
        = "INITIAL") := by
  decide

/-- C1 amended: every non-admin submission creates the venue with
`isActive = false`, and the accompanying initial signal has kind
`ACTIVE` (described as the initial community report) and source role
`USER`. -/
theorem submitUser_unlisted_activeSignal_userRole (name desc : String)
    (username : Option String) (mid : String) :
    (submitMasjidReport false name desc username mid).1.isActive = false ∧
    (submitMasjidReport false name desc username mid).2.signalType = "ACTIVE" ∧
    (submitMasjidReport false name desc username mid).2.sourceType = "USER" ∧
    (submitMasjidReport false name desc username mid).2.description
      = "Community report — initial signal" :=
  ⟨rfl, rfl, rfl, rfl⟩

/-- C5: every masjid-admin submission creates the venue with
`isActive = true` immediately, and the accompanying signal has kind
`ADMIN_VERIFY` and source role `ADMIN`. -/
theorem submitAdmin_listed_adminVerify_adminRole (name desc : String)
    (username : Option String) (mid : String) :
    (submitMasjidReport true name desc username mid).1.isActive = true ∧
    (submitMasjidReport true name desc username mid).2.signalType = "ADMIN_VERIFY" ∧
    (submitMasjidReport true name desc username mid).2.sourceType = "ADMIN" :=
  ⟨rfl, rfl, rfl⟩

/-! ## Badges: the `initDetail` badge display and the validity rule -/

/-- A badge record as delivered by `/api/masjids/id/badges/` and
consumed by `initDetail`; timestamps are instants on a common clock. -/
structure Badge where
  badgeID : String
  issueDate : Nat
  expiryDate : Option Nat
  isActive : Bool
  isRevoked : Bool
deriving DecidableEq, Repr

/-- The validity decision the `initDetail` badge list actually renders:
`b.isActive && !b.isRevoked` (the expiry date is displayed as text but
never compared with the current time). -/
def badgeDisplayedValid (b : Badge) : Bool := b.isActive && !b.isRevoked

/-- The shield label `initDetail` shows for a badge. -/
def badgeShieldLabel (b : Badge) : String :=
  if b.isActive && !b.isRevoked then "Valid" else "Revoked"

/-- Modelled from the spec: the effective-validity rule of the
BadgeLifecycle component (server-side, absent from src/):
`active && !revoked && (expiry is absent || expiry > now)`. -/
def effectiveValidity (b : Badge) (now : Nat) : Bool :=
  b.isActive && !b.isRevoked &&
    (match b.expiryDate with
     | none => true
     | some e => decide (now < e))

/-- C6 counterexample: a badge that is active, unrevoked and already
expired (expiry 5, now 10) is invalid under the rule yet the badge-status
display shows it as Valid — the display does not decide by the rule. -/
theorem badgeDisplay_ignores_expiry :
    badgeDisplayedValid ⟨"b1", 0, some 5, true, false⟩ = true ∧
    badgeShieldLabel ⟨"b1", 0, some 5, true, false⟩ = "Valid" ∧
    effectiveValidity ⟨"b1", 0, some 5, true, false⟩ 10 = false := by
  decide

/-- C6 amended: effective validity per the rule makes a badge whose
expiry equals the current instant invalid and a revoked badge invalid
regardless of expiry (and the display also shows a revoked badge as
invalid); but the badge-status display decides by
`active && !revoked` alone, agreeing with the rule only while the badge
is unexpired. -/
theorem badge_validity_rule_vs_display (b : Badge) (now : Nat) :
    (b.expiryDate = some now → effectiveValidity b now = false) ∧
    (b.isRevoked = true →
      effectiveValidity b now = false ∧ badgeDisplayedValid b = false) ∧
    badgeDisplayedValid b = (b.isActive && !b.isRevoked) ∧
    ((∀ e, b.expiryDate = some e → now < e) →
      badgeDisplayedValid b = effectiveValidity b now) := by
  rcases b with ⟨id, iss, exp, act, rev⟩
  refine ⟨?_, ?_, rfl, ?_⟩
  · intro h
    simp only at h
    subst h
    simp [effectiveValidity]
  · intro h
    simp only at h
    subst h
    simp [effectiveValidity, badgeDisplayedValid]
  · intro h
    cases exp with
    | none => simp [effectiveValidity, badgeDisplayedValid]
    | some e =>
        have he : now < e := h e rfl
        simp [effectiveValidity, badgeDisplayedValid, he]

/-- Witness for C6 (amended) at a concrete badge: revoked with expiry
equal to the current instant, invalid under the rule and in the display. -/
theorem badge_validity_rule_vs_display_witness :
    effectiveValidity ⟨"b2", 0, some 7, true, true⟩ 7 = false ∧
    badgeDisplayedValid ⟨"b2", 0, some 7, true, true⟩ = false := by
  have h := badge_validity_rule_vs_display ⟨"b2", 0, some 7, true, true⟩ 7
  exact ⟨h.1 rfl, (h.2.1 rfl).2⟩

/-! ## `escHTML`: text-node escaping

`escHTML` writes `s || ''` into a detached div's `textContent` and reads
back `innerHTML`. Per the HTML fragment-serialization algorithm the
browser escapes exactly the characters `&`, U+00A0 (no-break space),
`<` and `>` of a text node; that round trip is modelled character by
character. -/

/-- Serialization of one text-node character: `&`, U+00A0, `<` and `>`
become their entities, every other character is emitted unchanged. -/
def escCharL (c : Char) : List Char :=
  if c = '&' then ['&', 'a', 'm', 'p', ';']
  else if c = '\u00A0' then ['&', 'n', 'b', 's', 'p', ';']
  else if c = '<' then ['&', 'l', 't', ';']
  else if c = '>' then ['&', 'g', 't', ';']
  else [c]

/-- The `textContent` / `innerHTML` round trip on a string. -/
def htmlTextEscape (s : String) : String :=
  String.mk ((s.data.map escCharL).flatten)

/-- `escHTML(s)`: a null, undefined or empty argument collapses to the
empty string via `s || ''`; otherwise the string is escaped. -/
def escHTML (s : Option String) : String :=
  htmlTextEscape (s.getD "")

/-- No raw `<` or `>` survives the escape of a single character. -/
theorem escCharL_no_markup (c : Char) :
    ('<' ∉ escCharL c) ∧ ('>' ∉ escCharL c) := by
  unfold escCharL
  split_ifs with h1 h2 h3 h4
  · decide
  · decide
  · decide
  · decide
  · constructor
    · simp only [List.mem_singleton]
      exact fun hc => h3 hc.symm
    · simp only [List.mem_singleton]
      exact fun hc => h4 hc.symm

/-- A character list all of whose members are ordinary passes through
the escape unchanged. -/
theorem escCharL_map_id (l : List Char)
    (h : ∀ c ∈ l, c ≠ '&' ∧ c ≠ '\u00A0' ∧ c ≠ '<' ∧ c ≠ '>') :
    (l.map escCharL).flatten = l := by
  induction l with
  | nil => simp
  | cons c t ih =>
      have hc := h c (List.mem_cons_self c t)
      have ht := ih (fun x hx => h x (List.mem_cons_of_mem c hx))
      simp [escCharL, hc.1, hc.2.1, hc.2.2.1, hc.2.2.2, ht]

/-- C10: `escHTML` is total — null, undefined and empty input give the
empty string; on every string input the output contains no raw `<` or
`>` character (markup never passes through unescaped), and a string
without the four serializer-escaped characters (`&`, U+00A0, `<`, `>`)
is returned verbatim. -/
theorem escHTML_total_and_escapes :
    escHTML none = "" ∧
    escHTML (some "") = "" ∧
    (∀ s : String,
      '<' ∉ (escHTML (some s)).data ∧ '>' ∉ (escHTML (some s)).data) ∧
    (∀ s : String, (∀ c ∈ s.data, c ≠ '&' ∧ c ≠ '\u00A0' ∧ c ≠ '<' ∧ c ≠ '>') →
      escHTML (some s) = s) := by
  refine ⟨rfl, rfl, ?_, ?_⟩
  · intro s
    constructor
    · intro hmem
      simp only [escHTML, htmlTextEscape, Option.getD_some] at hmem
      rw [List.mem_flatten] at hmem
      obtain ⟨l, hl, hc⟩ := hmem
      rw [List.mem_map] at hl
      obtain ⟨c, _, rfl⟩ := hl
      exact (escCharL_no_markup c).1 hc
    · intro hmem
      simp only [escHTML, htmlTextEscape, Option.getD_some] at hmem
      rw [List.mem_flatten] at hmem
      obtain ⟨l, hl, hc⟩ := hmem
      rw [List.mem_map] at hl
      obtain ⟨c, _, rfl⟩ := hl
      exact (escCharL_no_markup c).2 hc
  · intro s h
    simp only [escHTML, htmlTextEscape, Option.getD_some]
    rw [escCharL_map_id s.data h]

/-- Witness for C10 at concrete inputs: a name containing markup loses
its raw angle brackets, and a plain name is returned unchanged. -/
theorem escHTML_total_and_escapes_witness :
    '<' ∉ (escHTML (some "<b>x&y</b>")).data ∧
    escHTML (some "Masjid An-Nur") = "Masjid An-Nur" := by
  refine ⟨(escHTML_total_and_escapes.2.2.1 "<b>x&y</b>").1, ?_⟩
  exact escHTML_total_and_escapes.2.2.2 "Masjid An-Nur" (by decide)

/-! ## Confidence badges: `confidenceBadgeHTML` and per-page levels -/

/-- One entry of the literal lookup object inside
`confidenceBadgeHTML`. -/
structure BadgeInfo where
  cls : String
  icon : String
  label : String
deriving DecidableEq, Repr

/-- `confidenceBadgeHTML(level)`: looks the level up in the literal map
with keys 0–3 and falls back to the level-0 entry whenever the lookup is
undefined (`map[level] || map[0]`); `none` stands for a null or
undefined level. JS numbers are modelled as integers, which covers every
level value the callers produce. -/
def confidenceBadgeHTML (level : Option Int) : String :=
  let info : BadgeInfo :=
    if level = some 0 then ⟨"c0", "fas fa-circle", "Community Reported"⟩
    else if level = some 1 then ⟨"c1", "fas fa-users", "Community Confirmed"⟩
    else if level = some 2 then ⟨"c2", "fas fa-check-circle", "Verified"⟩
    else if level = some 3 then ⟨"c3", "fas fa-shield-alt", "Actively Maintained"⟩
    else ⟨"c0", "fas fa-circle", "Community Reported"⟩
  "<span class=\"confidence-badge " ++ info.cls ++ "\"><i class=\"" ++ info.icon
    ++ "\"></i> " ++ info.label ++ "</span>"

/-- The nested `confidence_record` of a venue as delivered by the API;
`confidenceLevel` may be null. -/
structure ConfidenceRecord where
  confidenceLevel : Option Int
deriving DecidableEq, Repr

/-- The venue fields the confidence-level derivations read. -/
structure MasjidRec where
  name : String
  masjidID : String
  description : Option String
  isActive : Bool
  confidence_record : Option ConfidenceRecord
deriving DecidableEq, Repr

/-- `masjidCardHTML`: `const level = cr ? cr.confidenceLevel : 0` — an
absent record gives 0, a present record passes its (possibly null)
level straight through. -/
def cardLevel (m : MasjidRec) : Option Int :=
  match m.confidence_record with
  | some cr => cr.confidenceLevel
  | none => some 0

/-- `searchMasjids` confidence filter:
`m.confidence_record?.confidenceLevel ?? 0`. -/
def searchFilterLevel (m : MasjidRec) : Int :=
  (m.confidence_record.bind (fun cr => cr.confidenceLevel)).getD 0

/-- `searchMasjids` map popup:
`m.confidence_record?.confidenceLevel ?? 0`. -/
def popupLevel (m : MasjidRec) : Int :=
  (m.confidence_record.bind (fun cr => cr.confidenceLevel)).getD 0

/-- Verify-list rendering:
`(m.confidence_record && m.confidence_record.confidenceLevel != null)
 ? m.confidence_record.confidenceLevel : 0`. -/
def verifyListLevel (m : MasjidRec) : Int :=
  match m.confidence_record with
  | some cr =>
      match cr.confidenceLevel with
      | some l => l
      | none => 0
  | none => 0

/-- Detail-page confidence badge, same null-guarded expression as the
verify list. -/
def detailLevel (m : MasjidRec) : Int :=
  match m.confidence_record with
  | some cr =>
      match cr.confidenceLevel with
      | some l => l
      | none => 0
  | none => 0

/-- The confidence badge the venue card renders. -/
def cardConfidenceBadge (m : MasjidRec) : String :=
  confidenceBadgeHTML (cardLevel m)

/-- The confidence badge the map popup renders. -/
def popupConfidenceBadge (m : MasjidRec) : String :=
  confidenceBadgeHTML (some (popupLevel m))

/-- The confidence badge the verify list renders. -/
def verifyListConfidenceBadge (m : MasjidRec) : String :=
  confidenceBadgeHTML (some (verifyListLevel m))

/-- The confidence badge the detail page renders. -/
def detailConfidenceBadge (m : MasjidRec) : String :=
  confidenceBadgeHTML (some (detailLevel m))

/-- C9: `confidenceBadgeHTML` is total — every level outside
`{0, 1, 2, 3}`, null and undefined included, renders the level-0 badge,
and each in-range level renders exactly its own markup, the four markups
being pairwise distinct. -/
theorem confidenceBadgeHTML_total (l : Option Int) :
    (l ≠ some 0 → l ≠ some 1 → l ≠ some 2 → l ≠ some 3 →
      confidenceBadgeHTML l = confidenceBadgeHTML (some 0)) ∧
    confidenceBadgeHTML none = confidenceBadgeHTML (some 0) ∧
    confidenceBadgeHTML (some 0)
      = "<span class=\"confidence-badge c0\"><i class=\"fas fa-circle\"></i> Community Reported</span>" ∧
    confidenceBadgeHTML (some 1)
      = "<span class=\"confidence-badge c1\"><i class=\"fas fa-users\"></i> Community Confirmed</span>" ∧
    confidenceBadgeHTML (some 2)
      = "<span class=\"confidence-badge c2\"><i class=\"fas fa-check-circle\"></i> Verified</span>" ∧
    confidenceBadgeHTML (some 3)
      = "<span class=\"confidence-badge c3\"><i class=\"fas fa-shield-alt\"></i> Actively Maintained</span>" ∧
    [confidenceBadgeHTML (some 0), confidenceBadgeHTML (some 1),
      confidenceBadgeHTML (some 2), confidenceBadgeHTML (some 3)].Nodup := by
  refine ⟨?_, by decide, by decide, by decide, by decide, by decide, by decide⟩
  intro h0 h1 h2 h3
  simp [confidenceBadgeHTML, h0, h1, h2, h3]

/-- Witness for C9 at the out-of-range level 7. -/
theorem confidenceBadgeHTML_total_witness :
    confidenceBadgeHTML (some 7) = confidenceBadgeHTML (some 0) :=
  (confidenceBadgeHTML_total (some 7)).1 (by decide) (by decide) (by decide) (by decide)

/-- C8: wherever the client renders a venue's confidence (card, map
popup, detail page, verify list, search filter), an absent
`confidence_record` or a null `confidenceLevel` yields level 0 — the
Community Reported badge. -/
theorem confidence_missing_defaults_level0 (m : MasjidRec)
    (h : m.confidence_record = none ∨
         ∃ cr, m.confidence_record = some cr ∧ cr.confidenceLevel = none) :
    cardConfidenceBadge m = confidenceBadgeHTML (some 0) ∧
    popupConfidenceBadge m = confidenceBadgeHTML (some 0) ∧
    verifyListConfidenceBadge m = confidenceBadgeHTML (some 0) ∧
    detailConfidenceBadge m = confidenceBadgeHTML (some 0) ∧
    searchFilterLevel m = 0 := by
  rcases h with h | ⟨cr, h, hl⟩
  · simp [cardConfidenceBadge, cardLevel, popupConfidenceBadge, popupLevel,
      verifyListConfidenceBadge, verifyListLevel, detailConfidenceBadge,
      detailLevel, searchFilterLevel, h]
  · simp [cardConfidenceBadge, cardLevel, popupConfidenceBadge, popupLevel,
      verifyListConfidenceBadge, verifyListLevel, detailConfidenceBadge,
      detailLevel, searchFilterLevel, confidenceBadgeHTML, h, hl]

/-- Witness for C8 at a concrete venue whose record is present but whose
level is null. -/
theorem confidence_missing_defaults_level0_witness :
    cardConfidenceBadge ⟨"M", "m1", none, false, some ⟨none⟩⟩
      = confidenceBadgeHTML (some 0) :=
  (confidence_missing_defaults_level0 ⟨"M", "m1", none, false, some ⟨none⟩⟩
    (Or.inr ⟨⟨none⟩, rfl, rfl⟩)).1

/-! ## Public badge verification: `resolve` and the verify page -/

/-- A token→badge binding held by the verification resolver, with the
bound venue's public identity. -/
structure BadgeRecord where
  token : String
  badge : Badge
  masjidName : String
  masjidID : String
deriving DecidableEq, Repr

/-- The payload of `/api/verify/token/` the verify page consumes:
`valid` plus venue identity and timestamps, absent when invalid. -/
structure VerifyResult where
  valid : Bool
  masjid : Option String
  masjidID : Option String
  issuedAt : Option Nat
  expiresAt : Option Nat
deriving DecidableEq, Repr

/-- The single invalid answer: `valid = false` with no venue data and no
timestamps. -/
def VerifyResult.invalidEmpty : VerifyResult := ⟨false, none, none, none, none⟩

/-- Modelled from the spec: the VerificationResolver's `resolve(token)`
(server-side, absent from src/) — an unknown token answers
`valid = false` with no venue data, a known token answers the venue's
public identity and the badge timestamps exactly when the badge is
effectively valid, and otherwise the same bare `valid = false`. -/
def resolve (store : List BadgeRecord) (token : String) (now : Nat) : VerifyResult :=
  match store.find? (fun rec => rec.token == token) with
  | none => VerifyResult.invalidEmpty
  | some rec =>
      if effectiveValidity rec.badge now then
        { valid := true, masjid := some rec.masjidName,
          masjidID := some rec.masjidID,
          issuedAt := some rec.badge.issueDate,
          expiresAt := rec.badge.expiryDate }
      else VerifyResult.invalidEmpty

/-- Outcome of the verify page's `apiFetch` of `/api/verify/token/`:
either the parsed payload or a thrown error. -/
inductive VerifyFetchOutcome where
  | threw
  | ok (data : VerifyResult)
deriving DecidableEq, Repr

/-- The card `initVerify` fills in: icon class, icon markup, title and
body. -/
structure VerifyDisplay where
  iconClass : String
  icon : String
  title : String
  body : String
deriving DecidableEq, Repr

/-- A timestamp rendered by the verify page, with its fallback text. -/
def fmtDate (n : Option Nat) (absent : String) : String :=
  match n with
  | some d => toString d
  | none => absent

/-- `initVerify`: a valid payload renders the verified card with the
venue identity and timestamps; an invalid payload renders the Badge
Invalid card; a thrown fetch renders the Badge Not Found card. -/
def renderVerify : VerifyFetchOutcome → VerifyDisplay
  | VerifyFetchOutcome.threw =>
      ⟨"verify-icon invalid", "fa-question", "Badge Not Found",
        "No badge was found with this token."⟩
  | VerifyFetchOutcome.ok d =>
      if d.valid then
        ⟨"verify-icon valid", "fa-check", "Badge Verified",
          "This badge is active and valid. Masjid: " ++ escHTML d.masjid
            ++ " Issued: " ++ fmtDate d.issuedAt "N/A"
            ++ " Expires: " ++ fmtDate d.expiresAt "No expiry"
            ++ " Link: /masjid/" ++ (d.masjidID.getD "undefined") ++ "/"⟩
      else
        ⟨"verify-icon invalid", "fa-times", "Badge Invalid",
          "This badge is no longer valid. It may have been revoked or expired."⟩

/-- C4: a lookup with an unknown token and a lookup with a known token
whose badge is invalid produce the very same answer — `valid = false`
with no venue data and no timestamps — and hence the very same rendered
card, so the public caller cannot tell them apart. -/
theorem verify_unknown_indistinguishable_from_invalid
    (store : List BadgeRecord) (t1 t2 : String) (now : Nat) (rec : BadgeRecord)
    (h1 : store.find? (fun x => x.token == t1) = none)
    (h2 : store.find? (fun x => x.token == t2) = some rec)
    (h3 : effectiveValidity rec.badge now = false) :
    resolve store t1 now = resolve store t2 now ∧
    resolve store t1 now = VerifyResult.invalidEmpty ∧
    (resolve store t1 now).valid = false ∧
    (resolve store t1 now).masjid = none ∧
    renderVerify (VerifyFetchOutcome.ok (resolve store t1 now))
      = renderVerify (VerifyFetchOutcome.ok (resolve store t2 now)) := by
  have e1 : resolve store t1 now = VerifyResult.invalidEmpty := by
    simp [resolve, h1]
  have e2 : resolve store t2 now = VerifyResult.invalidEmpty := by
    simp [resolve, h2, h3]
  rw [e1, e2]
  exact ⟨rfl, rfl, rfl, rfl, rfl⟩

/-- Witness for C4 at a concrete store: one revoked badge bound to
token tokB; looking up the unknown tokA and the bound tokB give the
same answer. -/
theorem verify_unknown_indistinguishable_from_invalid_witness :
    resolve [⟨"tokB", ⟨"b9", 3, none, true, true⟩, "Masjid One", "m9"⟩] "tokA" 5
      = resolve [⟨"tokB", ⟨"b9", 3, none, true, true⟩, "Masjid One", "m9"⟩] "tokB" 5 ∧
    (resolve [⟨"tokB", ⟨"b9", 3, none, true, true⟩, "Masjid One", "m9"⟩] "tokA" 5).valid
      = false := by
  have h := verify_unknown_indistinguishable_from_invalid
      [⟨"tokB", ⟨"b9", 3, none, true, true⟩, "Masjid One", "m9"⟩] "tokA" "tokB" 5
      ⟨"tokB", ⟨"b9", 3, none, true, true⟩, "Masjid One", "m9"⟩
      (by decide) (by decide) (by decide)
  exact ⟨h.1, h.2.2.1⟩

end AlMinar
